import Mathlib

/-!
Shallow embedding of the Capture/Transcode/Playback orchestration component
of the audio-we-fev2 repository.  The canonical source file is
src/unnamed/part_000 (the multi-source variant with a remote library and
per-recording format selection); src/src/WebVoiceRecorder copy.jsx is a
near-duplicate of it and src/src/WebVoiceRecorderopus.jsx is the
single-source Opus variant.  Every definition below cites the source lines
it embeds.  React setState calls are modelled as immediate field updates on
an explicit component-state record; the observable side effects that the
claims talk about (pausing output, revoking and creating object URLs,
acquiring the device, starting and stopping captures) are recorded in an
explicit event trace.
-/

namespace AudioWe

/-! ## Data model -/

/-- One encoded variant of a remote library entry, as delivered by the
backend list endpoint (`recording.mp3` / `recording.mp4` objects used in
src/unnamed/part_000 lines 80-114).  Every field can be absent in the JSON,
hence the options. -/
structure VariantInfo where
  url : Option String
  mimetype : Option String
  sizeBytes : Option Nat
deriving DecidableEq, Repr

/-- A remote library entry (`recording` objects of src/unnamed/part_000):
an id plus up to two encoded variants. -/
structure Recording where
  id : String
  mp3 : Option VariantInfo
  mp4 : Option VariantInfo
deriving DecidableEq, Repr

/-- An audio blob: declared mime type, byte size and payload bytes. -/
structure Blob where
  mime : String
  size : Nat
  data : List Nat
deriving DecidableEq, Repr

/-- Observable side effects of the component, recorded as an event trace:
pausing the audio element, resetting the tracked elapsed time, detaching
the attached source, attaching and starting a source, a failed play call,
requesting the input device, starting a capture on a granted stream,
stopping the tracks of a stream, creating an object URL and revoking one. -/
inductive Ev where
  | pauseOutput
  | resetElapsed
  | detachSource
  | attachSource (url : String)
  | beginPlay (url : String)
  | playFailed
  | acquireDevice
  | startCapture (stream : Nat)
  | stopTracks (stream : Nat)
  | createAddr (url : String)
  | revokeAddr (url : String)
deriving DecidableEq, Repr

/-- The component state of src/unnamed/part_000: the React state hooks
(lines 6-25) together with the refs (lines 15-21) and the observable state
of the single hidden audio element (lines 522-528).  `recordingFormats` is
the per-recording selected-format map, kept as an association list. -/
structure CState where
  isRecording : Bool
  isPlaying : Bool
  recordingTime : Nat
  playbackTime : Nat
  audioBlob : Option Blob
  audioUrl : String
  error : String
  isConverting : Bool
  selectedRecording : Option Recording
  recordingsList : List Recording
  recordingFormats : List (String × String)
  mediaRecorder : Option Nat
  recorderMime : String
  stream : Option Nat
  chunks : List Blob
  timer : Option Nat
  playbackTimer : Option Nat
  hasPlayer : Bool
  playerSrc : Option String
  playerCurrentTime : Nat
  playerPaused : Bool
  ffmpegLoaded : Bool
deriving DecidableEq, Repr

/-! ## Address normalization (src/unnamed/part_000 lines 63-77) -/

/-- JavaScript `String.prototype.replace` with a plain-string pattern:
replace the first occurrence of `pat` by `rep`, return the string unchanged
when `pat` does not occur.  (For the empty input the JS function with an
empty pattern would prepend `rep`; all call sites in the source use
non-empty patterns and the caller has already ruled out the empty input.) -/
def replaceFirst (pat rep : List Char) : List Char → List Char
  | [] => []
  | c :: rest =>
      if (c :: rest).take pat.length = pat then
        rep ++ (c :: rest).drop pat.length
      else
        c :: replaceFirst pat rep rest

/-- String wrapper for `replaceFirst`. -/
def replaceFirstStr (s pat rep : String) : String :=
  (replaceFirst pat.toList rep.toList s.toList).asString

/-- Embeds `normalizeServerUrl` (src/unnamed/part_000 lines 63-77).
`hostname` stands for `window.location.hostname`; the `Option String`
input models that the stored url may be absent (`!url` in JS is true for
null, undefined and the empty string). -/
def normalizeServerUrl (hostname : String) (url : Option String) : Option String :=
  match url with
  | none => none
  | some u =>
      if u = "" then none
      else if hostname = "localhost" then
        some (replaceFirstStr u "10.0.2.2" "localhost")
      else if hostname = "10.0.2.2" then
        some (replaceFirstStr u "localhost" "10.0.2.2")
      else some u

/-- Predicate stating that `pat` occurs in `s` at position `i`. -/
def occursAt (pat s : List Char) (i : Nat) : Prop :=
  (s.drop i).take pat.length = pat

/-- Index of the first occurrence of `pat` in `s`, if any. -/
def firstOccIdx (pat : List Char) : List Char → Option Nat
  | [] => if pat = [] then some 0 else none
  | c :: rest =>
      if (c :: rest).take pat.length = pat then some 0
      else (firstOccIdx pat rest).map (· + 1)

/-- Replacement of the first occurrence, stated the way the claim words it:
split the string at the first occurrence of the pattern and splice the
replacement in; leave the string unchanged when the pattern is absent. -/
def specReplaceFirst (s pat rep : List Char) : List Char :=
  match firstOccIdx pat s with
  | none => s
  | some i => s.take i ++ rep ++ s.drop (i + pat.length)

theorem firstOccIdx_spec (pat : List Char) :
    ∀ s i, firstOccIdx pat s = some i →
      occursAt pat s i ∧ ∀ j, j < i → ¬ occursAt pat s j := by
  intro s
  induction s with
  | nil =>
      intro i h
      simp only [firstOccIdx] at h
      split at h
      · rename_i hp
        cases h
        refine ⟨by simp [occursAt, hp], ?_⟩
        intro j hj
        omega
      · cases h
  | cons c rest ih =>
      intro i h
      simp only [firstOccIdx] at h
      split at h
      · rename_i hp
        cases h
        refine ⟨by simpa [occursAt] using hp, ?_⟩
        intro j hj
        omega
      · rename_i hp
        rcases Option.map_eq_some'.mp h with ⟨i0, hi0, rfl⟩
        rcases ih i0 hi0 with ⟨hocc, hmin⟩
        refine ⟨by simpa [occursAt] using hocc, ?_⟩
        intro j hj
        cases j with
        | zero => simpa [occursAt] using hp
        | succ j0 =>
            have : j0 < i0 := by omega
            simpa [occursAt] using hmin j0 this

theorem firstOccIdx_none (pat : List Char) :
    ∀ s, firstOccIdx pat s = none → ∀ j, ¬ occursAt pat s j := by
  intro s
  induction s with
  | nil =>
      intro h j
      simp only [firstOccIdx] at h
      split at h
      · cases h
      · rename_i hp
        simp [occursAt]
        intro hc
        exact hp hc
  | cons c rest ih =>
      intro h j
      simp only [firstOccIdx] at h
      split at h
      · cases h
      · rename_i hp
        have hrest : firstOccIdx pat rest = none := by
          cases hr : firstOccIdx pat rest with
          | none => rfl
          | some k => rw [hr] at h; cases h
        cases j with
        | zero => simpa [occursAt] using hp
        | succ j0 => simpa [occursAt] using ih hrest j0

theorem replaceFirst_eq_spec (pat rep : List Char) (hpat : pat ≠ []) :
    ∀ s, replaceFirst pat rep s = specReplaceFirst s pat rep := by
  intro s
  induction s with
  | nil => simp [replaceFirst, specReplaceFirst, firstOccIdx, hpat]
  | cons c rest ih =>
      by_cases hp : (c :: rest).take pat.length = pat
      · simp [replaceFirst, specReplaceFirst, firstOccIdx, hp]
      · simp only [replaceFirst, specReplaceFirst, firstOccIdx, hp, if_neg] at *
        cases hr : firstOccIdx pat rest with
        | none => simp [hr] at ih ⊢; exact ih
        | some i =>
            simp only [hr, Option.map_some'] at ih ⊢
            rw [ih]
            have hdrop : (c :: rest).drop (i + 1 + pat.length) =
                rest.drop (i + pat.length) := by
              have : i + 1 + pat.length = (i + pat.length) + 1 := by omega
              simp [this]
            simp [List.take_succ_cons, hdrop]

/-! ## Library url resolution (src/unnamed/part_000 lines 79-114) -/

/-- Embeds the selected-format lookup of src/unnamed/part_000 line 81:
look the id up in the selected-format map, defaulting to mp3 when the
entry is absent or falsy (the empty string). -/
def lookupFormat (formats : List (String × String)) (id : String) : String :=
  match formats.lookup id with
  | some f => if f = "" then "mp3" else f
  | none => "mp3"

/-- Embeds `getRecordingUrl` (src/unnamed/part_000 lines 80-96): pick the
variant named by the selected format (the `switch` maps `"mp4"` to the mp4
variant and both `"mp3"` and the default case to the mp3 variant), take its
url and normalize it for the current hostname. -/
def getRecordingUrl (hostname : String) (formats : List (String × String))
    (r : Recording) : Option String :=
  let v : Option VariantInfo :=
    match lookupFormat formats r.id with
    | "mp4" => r.mp4
    | _ => r.mp3
  normalizeServerUrl hostname (v.bind VariantInfo.url)

/-! ## Playback controller (src/unnamed/part_000 lines 299-352) -/

/-- Embeds `stopPlayback` (src/unnamed/part_000 lines 339-352, identical in
src/src/WebVoiceRecorder copy.jsx lines 302-316): pause the audio element
and reset its position when the element exists, clear the playing flag,
reset the tracked elapsed time, deselect any library recording and clear
the playback timer. -/
def stopPlaybackSt (s : CState) : CState :=
  { s with
    playerPaused := if s.hasPlayer then true else s.playerPaused
    playerCurrentTime := if s.hasPlayer then 0 else s.playerCurrentTime
    isPlaying := false
    playbackTime := 0
    selectedRecording := none
    playbackTimer := none }

/-- Event trace of `stopPlayback`. -/
def stopPlaybackEv (s : CState) : List Ev :=
  (if s.hasPlayer then [Ev.pauseOutput] else []) ++ [Ev.resetElapsed, Ev.detachSource]

/-- The url `startPlayback` resolves (src/unnamed/part_000 lines 301-303):
the selected library recording when one is selected, otherwise the local
object url; `none` models a falsy url (the guard on line 305 skips). -/
def urlToPlay (hostname : String) (s : CState) : Option String :=
  match s.selectedRecording with
  | some r => getRecordingUrl hostname s.recordingFormats r
  | none => if s.audioUrl = "" then none else some s.audioUrl

/-- Error message set when `play()` rejects (src/unnamed/part_000
line 329; the dynamic `error.message` part is abstracted away). -/
def playFailMsg (u : String) : String :=
  "Failed to play audio. URL: " ++ u

/-- The attach-and-play tail of `startPlayback` (src/unnamed/part_000 lines
312-332): assign the source, load it (resetting the position), then start
playing.  `playOk` is the outcome of the `play()` promise: on success the
playing flag is set, the elapsed time reset and the playback timer started;
on rejection the error is reported, the playing flag cleared and the timer
cleared. -/
def attachPlaySt (playOk : Bool) (u : String) (s : CState) : CState :=
  if playOk then
    { s with
      playerSrc := some u, playerCurrentTime := 0, playerPaused := false,
      isPlaying := true, playbackTime := 0, playbackTimer := some 1 }
  else
    { s with
      playerSrc := some u, playerCurrentTime := 0, playerPaused := true,
      error := playFailMsg u, isPlaying := false, playbackTimer := none }

/-- Event trace of the attach-and-play tail. -/
def attachPlayEv (playOk : Bool) (u : String) : List Ev :=
  Ev.attachSource u :: (if playOk then [Ev.beginPlay u] else [Ev.playFailed])

/-- Embeds `startPlayback` (src/unnamed/part_000 lines 300-336): resolve
the url; when the audio element exists and the url is truthy, first run a
full `stopPlayback` if something is playing, then attach and play the
resolved url; otherwise do nothing. -/
def startPlaybackSt (hostname : String) (playOk : Bool) (s : CState) : CState :=
  match urlToPlay hostname s with
  | some u =>
      if s.hasPlayer then
        attachPlaySt playOk u (if s.isPlaying then stopPlaybackSt s else s)
      else s
  | none => s

/-- Event trace of `startPlayback`. -/
def startPlaybackEv (hostname : String) (playOk : Bool) (s : CState) : List Ev :=
  match urlToPlay hostname s with
  | some u =>
      if s.hasPlayer then
        (if s.isPlaying then stopPlaybackEv s else []) ++ attachPlayEv playOk u
      else []
  | none => []

/-- The source attached to the single playback slot, derived the way the
source derives it (src/unnamed/part_000 lines 450, 457, 682: comparing the
selected recording against the playing flag): a library entry when playing
with a recording selected, the local artifact when playing with none
selected, nothing when not playing. -/
inductive PlaySource where
  | localArtifact
  | libraryEntry (id : String)
deriving DecidableEq, Repr

/-- Derived active source of the playback slot. -/
def activeSource (s : CState) : Option PlaySource :=
  if s.isPlaying then
    match s.selectedRecording with
    | some r => some (PlaySource.libraryEntry r.id)
    | none => some PlaySource.localArtifact
  else none

/-- The playback state the spec enumerates for the playback slot:
active source, playing flag and elapsed seconds. -/
def playbackView (s : CState) : Option PlaySource × Bool × Nat :=
  (activeSource s, s.isPlaying, s.playbackTime)

/-- Embeds `handleFormatChange` (src/unnamed/part_000 lines 443-453):
store the new format for the recording id, then, when that recording is
the selected one and something is playing, stop playback.  The format map
update is the JS object spread that overrides the entry for the id. -/
def updateFormat (formats : List (String × String)) (rid fmt : String) :
    List (String × String) :=
  (rid, fmt) :: formats.filter (fun p => decide (p.1 ≠ rid))

/-- State effect of `handleFormatChange`. -/
def handleFormatChangeSt (rid fmt : String) (s : CState) : CState :=
  let s1 := { s with recordingFormats := updateFormat s.recordingFormats rid fmt }
  if (match s.selectedRecording with
      | some r => decide (r.id = rid)
      | none => false) && s.isPlaying then
    stopPlaybackSt s1
  else s1

/-! ## Capture controller and transcode pipeline
(src/unnamed/part_000 lines 135-297 and 210-261) -/

/-- Platform environment visible to `startRecording`: browser capability
flags checked by `checkSupport` (lines 136-148), the outcome of the
`getUserMedia` device request (a granted stream handle, or `none` for a
denial) and the platform `MediaRecorder.isTypeSupported` predicate. -/
structure Env where
  hasMediaDevices : Bool
  hasMediaRecorder : Bool
  grant : Option Nat
  isTypeSupported : String → Bool

/-- Error message of `checkSupport` when `navigator.mediaDevices` is
missing (line 138). -/
def msgNoMediaDevices : String := "Your browser does not support audio recording."

/-- Error message of `checkSupport` when `MediaRecorder` is missing
(line 143). -/
def msgNoMediaRecorder : String := "MediaRecorder is not supported in your browser."

/-- Error message when the codec engine has not finished loading
(src/unnamed/part_000 line 177, src/src/WebVoiceRecorderopus.jsx line 101). -/
def msgEngineNotLoaded : String := "Audio converter is not loaded yet. Please wait."

/-- Error message when the device request is denied (line 282; the dynamic
`error.message` part is abstracted away). -/
def msgGrantFail : String := "Failed to start recording."

/-- Progress message while converting (line 221). -/
def msgConverting : String := "Converting audio to MP4 (AAC)..."

/-- Error message when the conversion fails (line 254; the dynamic
`convertError.message` part is abstracted away). -/
def msgConvertFail : String := "Failed to convert audio."

/-- The fixed ordered preference list of container/codec combinations
(src/unnamed/part_000 lines 152-158). -/
def possibleTypes : List String :=
  ["audio/webm;codecs=opus", "audio/mp4;codecs=mp4a.40.2",
   "audio/webm", "audio/mp4", "audio/aac"]

/-- The for-loop of `getSupportedMimeType`: first supported entry, or the
empty string when none is supported. -/
def firstSupported (isSupported : String → Bool) : List String → String
  | [] => ""
  | t :: rest => if isSupported t then t else firstSupported isSupported rest

/-- Embeds `getSupportedMimeType` (src/unnamed/part_000 lines 151-171):
return the first entry of `possibleTypes` that the platform reports as
supported, or the empty string (platform default) when none is. -/
def getSupportedMimeType (isSupported : String → Bool) : String :=
  firstSupported isSupported possibleTypes

/-- Embeds `startRecording` (src/unnamed/part_000 lines 174-284) up to and
including the synchronous part after the device grant resolves.  Guards in
source order: `checkSupport` (two capability checks), then the
codec-engine-loaded check; each failing guard sets its message and returns.
Past the guards the code stops playback, clears the selected recording and
the error, then awaits the device request: a denial lands in the `catch`
(error reported); a grant installs the stream, resets the chunk buffer,
creates and starts a recorder and starts the one-second timer. -/
def startRecordingSt (env : Env) (s : CState) : CState :=
  if env.hasMediaDevices = false then { s with error := msgNoMediaDevices }
  else if env.hasMediaRecorder = false then { s with error := msgNoMediaRecorder }
  else if s.ffmpegLoaded = false then { s with error := msgEngineNotLoaded }
  else
    let s1 := { stopPlaybackSt s with selectedRecording := none, error := "" }
    match env.grant with
    | none => { s1 with error := msgGrantFail }
    | some st =>
        { s1 with
          stream := some st, chunks := [], mediaRecorder := some st,
          recorderMime := getSupportedMimeType env.isTypeSupported,
          isRecording := true, recordingTime := 0, timer := some 1 }

/-- Event trace of `startRecording`.  No event is emitted by the failing
guards; past them the trace records the playback stop, the device request
and, on a grant, the capture start. -/
def startRecordingEv (env : Env) (s : CState) : List Ev :=
  if env.hasMediaDevices = false then []
  else if env.hasMediaRecorder = false then []
  else if s.ffmpegLoaded = false then []
  else
    stopPlaybackEv s ++ Ev.acquireDevice ::
      (match env.grant with
       | none => []
       | some st => [Ev.startCapture st])

/-- Embeds `stopRecording` (src/unnamed/part_000 lines 287-297): when a
recorder exists and recording is active, request the recorder stop, clear
the recording flag and the timer; otherwise do nothing. -/
def stopRecordingSt (s : CState) : CState :=
  if s.mediaRecorder.isSome && s.isRecording then
    { s with isRecording := false, timer := none }
  else s

/-- The blob assembled from the captured chunks at the top of the recorder
`onstop` handler (src/unnamed/part_000 lines 211-213): chunk payloads
concatenated, typed with the recorder mime type. -/
def initialBlob (s : CState) : Blob :=
  { mime := s.recorderMime
    size := s.chunks.foldr (fun c acc => c.size + acc) 0
    data := s.chunks.foldr (fun c acc => c.data ++ acc) [] }

/-- The codec engine invocation arguments (src/unnamed/part_000 lines
229-239): transcode to AAC at 128k in an MP4 container. -/
def ffmpegExecArgs : List String :=
  ["-i", "input.file", "-c:a", "aac", "-b:a", "128k",
   "-movflags", "+faststart", "output.m4a"]

/-- Embeds the recorder `onstop` handler (src/unnamed/part_000 lines
210-261) together with the `useEffect` cleanup keyed on `audioUrl` (lines
117-133).  `convData` is the outcome of the codec engine run (`some` bytes
on success, `none` on failure); `newUrl` is the object url
`URL.createObjectURL` returns on the success path.
Success path: expose the converted blob with declared mime type
`audio/mp4`, install the fresh url and clear the conversion flag and the
message; the effect cleanup for the previous `audioUrl` value then revokes
the superseded address.
Failure path: report the error, revoke the previous address directly in
the `catch`, clear the url and the blob (the effect cleanup for the url
change revokes the previous address a second time, a no-op for an already
revoked address). -/
def onstopSt (convData : Option (List Nat)) (newUrl : String) (s : CState) : CState :=
  let s1 := { s with audioBlob := some (initialBlob s) }
  let s2 := { s1 with isConverting := true, error := msgConverting }
  match convData with
  | some d =>
      { s2 with
        audioBlob := some { mime := "audio/mp4", size := d.length, data := d }
        audioUrl := newUrl, error := "", isConverting := false }
  | none =>
      { s2 with
        error := msgConvertFail, audioUrl := "", audioBlob := none,
        isConverting := false }

/-- Event trace of the recorder `onstop` handler (with the `useEffect`
cleanup triggered by the `audioUrl` change). -/
def onstopEv (convData : Option (List Nat)) (newUrl : String) (s : CState) : List Ev :=
  (match s.stream with
   | some st => [Ev.stopTracks st]
   | none => []) ++
  match convData with
  | some _ =>
      Ev.createAddr newUrl ::
        (if s.audioUrl = "" then [] else [Ev.revokeAddr s.audioUrl])
  | none =>
      (if s.audioUrl = "" then [] else [Ev.revokeAddr s.audioUrl]) ++
      (if s.audioUrl = "" then [] else [Ev.revokeAddr s.audioUrl])

/-- Ready, as the source realizes it: not recording, not converting, a
local artifact exposed with a playable url (the playback and submit
section renders exactly when `audioUrl` is truthy, src/unnamed/part_000
line 531). -/
def isReady (s : CState) : Bool :=
  !s.isRecording && !s.isConverting && !decide (s.audioUrl = "") && s.audioBlob.isSome

/-- The ordering predicate of the claim on address lifecycle: somewhere in
the trace the old address is revoked strictly before the new address is
created. -/
def releasedBeforeB (tr : List Ev) (oldAddr newAddr : String) : Bool :=
  (List.range tr.length).any fun i =>
    (List.range tr.length).any fun j =>
      decide (i < j) && decide (tr.get? i = some (Ev.revokeAddr oldAddr)) &&
        decide (tr.get? j = some (Ev.createAddr newAddr))

/-! ## Concrete fixtures used by witnesses and counterexamples -/

/-- A quiescent component state: nothing recording, playing or converting,
the codec engine loaded, the audio element present and idle. -/
def idleState : CState where
  isRecording := false
  isPlaying := false
  recordingTime := 0
  playbackTime := 0
  audioBlob := none
  audioUrl := ""
  error := ""
  isConverting := false
  selectedRecording := none
  recordingsList := []
  recordingFormats := []
  mediaRecorder := none
  recorderMime := ""
  stream := none
  chunks := []
  timer := none
  playbackTimer := none
  hasPlayer := true
  playerSrc := none
  playerCurrentTime := 0
  playerPaused := true
  ffmpegLoaded := true

/-- A library entry with an mp3 variant, used by the C1 witness. -/
def c1Rec : Recording :=
  { id := "r1"
    mp3 := some { url := some "http://h/a.mp3", mimetype := some "audio/mpeg",
                  sizeBytes := some 100 }
    mp4 := none }

/-- A state in which the local artifact is playing and the library entry
`c1Rec` has just been selected for playback. -/
def c1State : CState :=
  { idleState with
    isPlaying := true, playbackTimer := some 1, playerPaused := false,
    playerSrc := some "blob:localA", audioUrl := "blob:localA",
    selectedRecording := some c1Rec, recordingsList := [c1Rec] }

/-- A state holding a previously transcoded local artifact whose playable
address is the object url blob:old. -/
def c2State : CState :=
  { idleState with
    audioUrl := "blob:old"
    audioBlob := some { mime := "audio/mp4", size := 3, data := [1, 2, 3] } }

/-- The event trace of a successful transcode run from `c2State` that
installs the fresh address blob:new. -/
def c2Trace : List Ev := onstopEv (some [7]) "blob:new" c2State

/-- An environment that grants the device request with stream handle 2 and
supports every container type. -/
def c3Env : Env :=
  { hasMediaDevices := true, hasMediaRecorder := true, grant := some 2,
    isTypeSupported := fun _ => true }

/-- A state in the middle of an active capture on stream handle 1. -/
def c3State : CState :=
  { idleState with
    isRecording := true, stream := some 1, mediaRecorder := some 1,
    timer := some 1, hasPlayer := false }

/-- An environment with full browser support, used by the C4 witness. -/
def c4Env : Env :=
  { hasMediaDevices := true, hasMediaRecorder := true, grant := some 1,
    isTypeSupported := fun _ => false }

/-- An idle state whose codec engine has not finished loading. -/
def c4State : CState := { idleState with ffmpegLoaded := false }

/-- A state about to run a conversion while a previous artifact with
address blob:prev is exposed, used by the C5 witness. -/
def c5State : CState :=
  { idleState with
    audioUrl := "blob:prev"
    audioBlob := some { mime := "audio/mp4", size := 1, data := [9] }
    stream := some 1 }

/-- A state in the middle of a capture of three one-second chunks, used by
the C6 witness. -/
def c6State : CState :=
  { idleState with
    isRecording := true, mediaRecorder := some 1, stream := some 1,
    timer := some 1, recorderMime := "audio/webm;codecs=opus",
    chunks := [{ mime := "audio/webm;codecs=opus", size := 2, data := [1, 2] },
               { mime := "audio/webm;codecs=opus", size := 2, data := [3, 4] },
               { mime := "audio/webm;codecs=opus", size := 2, data := [5, 6] }] }

/-- A platform support predicate that only supports plain mp4, used by the
C7 witness. -/
def c7Supported : String → Bool := fun t => decide (t = "audio/mp4")

/-- A library entry with two variants, used by the C8 witness. -/
def c8Rec : Recording :=
  { id := "r8"
    mp3 := some { url := some "http://h/b.mp3", mimetype := some "audio/mpeg",
                  sizeBytes := some 10 }
    mp4 := some { url := some "http://h/b.mp4", mimetype := some "audio/mp4",
                  sizeBytes := some 12 } }

/-- A state in which library entry `c8Rec` is playing its mp3 variant. -/
def c8State : CState :=
  { idleState with
    isPlaying := true, playbackTimer := some 1, playerPaused := false,
    playerSrc := some "http://h/b.mp3", selectedRecording := some c8Rec,
    recordingsList := [c8Rec] }

/-! ## Claim theorems -/

/-- C1: when a source is playing and `startPlayback` is invoked with a
resolvable url, the active source is first fully stopped — output paused,
elapsed playback time reset to 0, source detached — and only then is the
new url attached to the single playback slot and started: the result
equals the attach-and-play step applied to the fully stopped intermediate
state, and in the event trace the pause, reset and detach all precede the
attach and the play start. -/
theorem play_switch_stops_active_source_first
    (hostname : String) (playOk : Bool) (s : CState) (u : String)
    (hp : s.hasPlayer = true) (hplay : s.isPlaying = true)
    (hu : urlToPlay hostname s = some u) :
    startPlaybackSt hostname playOk s = attachPlaySt playOk u (stopPlaybackSt s)
  ∧ (stopPlaybackSt s).isPlaying = false
  ∧ (stopPlaybackSt s).playbackTime = 0
  ∧ activeSource (stopPlaybackSt s) = none
  ∧ (stopPlaybackSt s).playerPaused = true
  ∧ startPlaybackEv hostname playOk s =
      [Ev.pauseOutput, Ev.resetElapsed, Ev.detachSource] ++ attachPlayEv playOk u := by
  refine ⟨?_, ?_, ?_, ?_, ?_, ?_⟩ <;>
    simp [startPlaybackSt, startPlaybackEv, stopPlaybackSt, stopPlaybackEv,
          activeSource, hu, hp, hplay]

/-- Witness for C1 at a concrete state: the local artifact is playing and
the library entry `c1Rec` is started. -/
theorem play_switch_stops_active_source_first_witness :
    c1State.isPlaying = true
  ∧ urlToPlay "example.com" c1State = some "http://h/a.mp3"
  ∧ startPlaybackSt "example.com" true c1State =
      attachPlaySt true "http://h/a.mp3" (stopPlaybackSt c1State)
  ∧ activeSource (stopPlaybackSt c1State) = none
  ∧ startPlaybackEv "example.com" true c1State =
      [Ev.pauseOutput, Ev.resetElapsed, Ev.detachSource,
       Ev.attachSource "http://h/a.mp3", Ev.beginPlay "http://h/a.mp3"] :=
  ⟨rfl, by decide,
   (play_switch_stops_active_source_first "example.com" true c1State
      "http://h/a.mp3" rfl rfl (by decide)).1,
   (play_switch_stops_active_source_first "example.com" true c1State
      "http://h/a.mp3" rfl rfl (by decide)).2.2.2.1,
   by decide⟩

/-- C9: calling `stopPlayback` when nothing is playing (the playing flag is
clear and the tracked elapsed time is zero) is a no-op on the playback
state the claim enumerates — active source, playing flag and elapsed
time — and neither raises an error nor touches the recording or artifact
state. -/
theorem stop_noop_when_not_playing (s : CState)
    (h1 : s.isPlaying = false) (h2 : s.playbackTime = 0) :
    playbackView (stopPlaybackSt s) = playbackView s
  ∧ (stopPlaybackSt s).error = s.error
  ∧ (stopPlaybackSt s).audioUrl = s.audioUrl
  ∧ (stopPlaybackSt s).audioBlob = s.audioBlob
  ∧ (stopPlaybackSt s).isRecording = s.isRecording := by
  refine ⟨?_, rfl, rfl, rfl, rfl⟩
  simp [playbackView, activeSource, stopPlaybackSt, h1, h2]

/-- Witness for C9 at the quiescent state. -/
theorem stop_noop_when_not_playing_witness :
    playbackView (stopPlaybackSt idleState) = playbackView idleState
  ∧ (stopPlaybackSt idleState).error = idleState.error :=
  ⟨(stop_noop_when_not_playing idleState rfl rfl).1,
   (stop_noop_when_not_playing idleState rfl rfl).2.1⟩

/-- C2 counterexample: running a successful transcode from `c2State`
(previous address blob:old, fresh address blob:new), the previous address
is revoked exactly once and the fresh address is created, but at no point
of the trace is the revocation of the old address ordered before the
creation of the new one — the code creates the new object url first and
the revocation only runs in the effect cleanup triggered by the address
change, so the claim that the previous address is released before the new
address is created is false. -/
theorem release_before_create_counterexample :
    c2Trace.count (Ev.revokeAddr "blob:old") = 1
  ∧ Ev.createAddr "blob:new" ∈ c2Trace
  ∧ releasedBeforeB c2Trace "blob:old" "blob:new" = false := by decide

/-- C2 amended: after a successful transcode installing a fresh playable
address, the previously issued address is released exactly once, the
release is the last action of the run (nothing uses the address
afterwards) and the exposed address is the fresh one — but the release
happens strictly after the new address is created, because it is triggered
by the address change, not before it. -/
theorem transcode_releases_old_address_once_after_create
    (s : CState) (d : List Nat) (u : String)
    (hold : s.audioUrl ≠ "") (hnew : u ≠ s.audioUrl) :
    (onstopEv (some d) u s).count (Ev.revokeAddr s.audioUrl) = 1
  ∧ (onstopEv (some d) u s).getLast? = some (Ev.revokeAddr s.audioUrl)
  ∧ (∃ i j, i < j ∧
        (onstopEv (some d) u s).get? i = some (Ev.createAddr u) ∧
        (onstopEv (some d) u s).get? j = some (Ev.revokeAddr s.audioUrl))
  ∧ (onstopSt (some d) u s).audioUrl = u
  ∧ (onstopSt (some d) u s).audioUrl ≠ s.audioUrl := by
  refine ⟨?_, ?_, ?_, rfl, hnew⟩
  · cases hs : s.stream <;> simp [onstopEv, hs, hold, List.count_cons]
  · cases hs : s.stream <;> simp [onstopEv, hs, hold]
  · cases hs : s.stream
    · exact ⟨0, 1, by omega, by simp [onstopEv, hs, hold], by simp [onstopEv, hs, hold]⟩
    · exact ⟨1, 2, by omega, by simp [onstopEv, hs, hold], by simp [onstopEv, hs, hold]⟩

/-- Witness for the amended C2, run from `c2State`. -/
theorem transcode_releases_old_address_once_after_create_witness :
    c2Trace.count (Ev.revokeAddr "blob:old") = 1
  ∧ c2Trace.getLast? = some (Ev.revokeAddr "blob:old")
  ∧ (onstopSt (some [7]) "blob:new" c2State).audioUrl = "blob:new" :=
  ⟨(transcode_releases_old_address_once_after_create c2State [7] "blob:new"
      (by decide) (by decide)).1,
   (transcode_releases_old_address_once_after_create c2State [7] "blob:new"
      (by decide) (by decide)).2.1,
   (transcode_releases_old_address_once_after_create c2State [7] "blob:new"
      (by decide) (by decide)).2.2.2.1⟩

/-- C3: evaluation of the code at the failing input.  A second
`startRecording` issued while a capture on stream 1 is active is not
rejected: the guards pass, no busy signal is raised (the error stays
empty), the device is acquired again and a second capture is started on
stream 2, overwriting the recorder and stream refs while the tracks of
stream 1 are never stopped.  This contradicts the claim that the call is
rejected with a Busy signal and leaves the state unchanged. -/
theorem second_start_recording_not_rejected :
    (startRecordingSt c3Env c3State).isRecording = true
  ∧ (startRecordingSt c3Env c3State).stream = some 2
  ∧ (startRecordingSt c3Env c3State).mediaRecorder = some 2
  ∧ (startRecordingSt c3Env c3State).error = ""
  ∧ startRecordingEv c3Env c3State =
      [Ev.resetElapsed, Ev.detachSource, Ev.acquireDevice, Ev.startCapture 2]
  ∧ Ev.stopTracks 1 ∉ startRecordingEv c3Env c3State := by decide

/-- C4: calling `startRecording` on a supported platform while the codec
engine load has not completed is rejected with the engine-not-ready
message, performs no device acquisition (the event trace is empty) and
leaves the pipeline idle: the result only sets the error message. -/
theorem start_rejected_when_engine_not_ready
    (env : Env) (s : CState)
    (hmd : env.hasMediaDevices = true) (hmr : env.hasMediaRecorder = true)
    (hld : s.ffmpegLoaded = false)
    (hidle1 : s.isRecording = false) (hidle2 : s.isConverting = false) :
    startRecordingSt env s = { s with error := msgEngineNotLoaded }
  ∧ startRecordingEv env s = []
  ∧ Ev.acquireDevice ∉ startRecordingEv env s
  ∧ (startRecordingSt env s).isRecording = false
  ∧ (startRecordingSt env s).isConverting = false := by
  refine ⟨?_, ?_, ?_, ?_, ?_⟩ <;>
    simp [startRecordingSt, startRecordingEv, hmd, hmr, hld, hidle1, hidle2]

/-- Witness for C4: a supported platform with the engine still loading. -/
theorem start_rejected_when_engine_not_ready_witness :
    startRecordingSt c4Env c4State = { c4State with error := msgEngineNotLoaded }
  ∧ startRecordingEv c4Env c4State = [] :=
  ⟨(start_rejected_when_engine_not_ready c4Env c4State rfl rfl rfl rfl rfl).1,
   (start_rejected_when_engine_not_ready c4Env c4State rfl rfl rfl rfl rfl).2.1⟩

/-- C5: every failed conversion attempt discards all local-artifact state:
no artifact is exposed (the blob is cleared, including the partial raw
blob set at the start of the handler), no playable address remains, any
previously exposed address is revoked, the conversion flag is cleared, the
failure is reported and the state is not Ready — no usable playback
option is offered, regardless of the state the attempt started from. -/
theorem conversion_failure_discards_local_artifact (s : CState) (u : String) :
    (onstopSt none u s).audioBlob = none
  ∧ (onstopSt none u s).audioUrl = ""
  ∧ (onstopSt none u s).isConverting = false
  ∧ (onstopSt none u s).error = msgConvertFail
  ∧ (s.audioUrl ≠ "" → Ev.revokeAddr s.audioUrl ∈ onstopEv none u s)
  ∧ isReady (onstopSt none u s) = false := by
  refine ⟨rfl, rfl, rfl, rfl, ?_, ?_⟩
  · intro hold
    cases hs : s.stream <;> simp [onstopEv, hs, hold]
  · simp [isReady, onstopSt]

/-- Witness for C5 from `c5State`, whose previous address is blob:prev. -/
theorem conversion_failure_discards_local_artifact_witness :
    (onstopSt none "blob:won" c5State).audioBlob = none
  ∧ (onstopSt none "blob:won" c5State).audioUrl = ""
  ∧ Ev.revokeAddr "blob:prev" ∈ onstopEv none "blob:won" c5State :=
  ⟨(conversion_failure_discards_local_artifact c5State "blob:won").1,
   (conversion_failure_discards_local_artifact c5State "blob:won").2.1,
   (conversion_failure_discards_local_artifact c5State "blob:won").2.2.2.2.1
     (by decide)⟩

/-- C6: for every capture ended by `stopRecording` whose transcode
succeeds, the component reaches the Ready state exposing exactly one local
artifact, whose declared mime type is audio/mp4, reachable at the fresh
playable address; the codec invocation arguments are exactly the fixed
aac/128k target spec. -/
theorem transcode_success_reaches_ready_mp4
    (s : CState) (d : List Nat) (u : String) (r : Nat)
    (hmr : s.mediaRecorder = some r) (hrec : s.isRecording = true)
    (hu : u ≠ "") :
    (onstopSt (some d) u (stopRecordingSt s)).audioBlob =
      some { mime := "audio/mp4", size := d.length, data := d }
  ∧ (onstopSt (some d) u (stopRecordingSt s)).audioUrl = u
  ∧ (onstopSt (some d) u (stopRecordingSt s)).isRecording = false
  ∧ (onstopSt (some d) u (stopRecordingSt s)).isConverting = false
  ∧ (onstopSt (some d) u (stopRecordingSt s)).error = ""
  ∧ isReady (onstopSt (some d) u (stopRecordingSt s)) = true
  ∧ ffmpegExecArgs =
      ["-i", "input.file", "-c:a", "aac", "-b:a", "128k",
       "-movflags", "+faststart", "output.m4a"] := by
  refine ⟨?_, ?_, ?_, ?_, ?_, ?_, rfl⟩ <;>
    simp [onstopSt, stopRecordingSt, isReady, hmr, hrec, hu]

/-- Witness for C6: a three-chunk capture converted successfully. -/
theorem transcode_success_reaches_ready_mp4_witness :
    (onstopSt (some [1, 2, 3, 4]) "blob:m4a" (stopRecordingSt c6State)).audioBlob =
      some { mime := "audio/mp4", size := 4, data := [1, 2, 3, 4] }
  ∧ isReady (onstopSt (some [1, 2, 3, 4]) "blob:m4a" (stopRecordingSt c6State)) = true :=
  ⟨(transcode_success_reaches_ready_mp4 c6State [1, 2, 3, 4] "blob:m4a" 1
      rfl rfl (by decide)).1,
   (transcode_success_reaches_ready_mp4 c6State [1, 2, 3, 4] "blob:m4a" 1
      rfl rfl (by decide)).2.2.2.2.2.1⟩

theorem firstSupported_of_split (f : String → Bool) (l1 : List String)
    (t : String) (l2 : List String)
    (h1 : ∀ x ∈ l1, f x = false) (ht : f t = true) :
    firstSupported f (l1 ++ t :: l2) = t := by
  induction l1 with
  | nil => simp [firstSupported, ht]
  | cons a as ih =>
      have ha : f a = false := h1 a (by simp)
      simpa [firstSupported, ha] using ih (fun x hx => h1 x (by simp [hx]))

theorem firstSupported_of_none (f : String → Bool) :
    ∀ l : List String, (∀ x ∈ l, f x = false) → firstSupported f l = "" := by
  intro l
  induction l with
  | nil => intro _; rfl
  | cons a as ih =>
      intro h
      have ha : f a = false := h a (by simp)
      simpa [firstSupported, ha] using ih (fun x hx => h x (by simp [hx]))

/-- C7: `getSupportedMimeType` returns the first entry of the fixed
ordered preference list that the platform reports as supported — for any
split of the list into unsupported entries followed by a supported one it
returns that one — and returns the empty string (the platform-default
sentinel) when no listed entry is supported. -/
theorem mime_selection_first_supported (f : String → Bool) :
    (∀ l1 t l2, possibleTypes = l1 ++ t :: l2 → (∀ x ∈ l1, f x = false) →
        f t = true → getSupportedMimeType f = t)
  ∧ ((∀ x ∈ possibleTypes, f x = false) → getSupportedMimeType f = "") := by
  constructor
  · intro l1 t l2 hsplit h1 ht
    unfold getSupportedMimeType
    rw [hsplit]
    exact firstSupported_of_split f l1 t l2 h1 ht
  · intro h
    exact firstSupported_of_none f possibleTypes h

/-- Witness for C7: a platform supporting only plain mp4 selects it, and a
platform supporting nothing yields the empty sentinel. -/
theorem mime_selection_first_supported_witness :
    getSupportedMimeType c7Supported = "audio/mp4"
  ∧ getSupportedMimeType (fun _ => false) = "" :=
  ⟨(mime_selection_first_supported c7Supported).1
     ["audio/webm;codecs=opus", "audio/mp4;codecs=mp4a.40.2", "audio/webm"]
     "audio/mp4" ["audio/aac"] (by decide) (by decide) (by decide),
   (mime_selection_first_supported (fun _ => false)).2 (by decide)⟩

/-- C8: selecting a different variant tag for the library entry that is
currently playing stores the new selection and stops playback — playing
flag cleared, elapsed time reset, source detached — rather than
hot-swapping; selecting a variant for an entry that is not playing
(either nothing plays, the local artifact plays, or a different entry
plays) changes only the stored selection. -/
theorem variant_switch_stops_playing_entry :
    (∀ (s : CState) (r : Recording) (rid fmt : String),
        s.selectedRecording = some r → r.id = rid → s.isPlaying = true →
        fmt ≠ lookupFormat s.recordingFormats rid →
          handleFormatChangeSt rid fmt s =
            stopPlaybackSt
              { s with recordingFormats := updateFormat s.recordingFormats rid fmt }
        ∧ (handleFormatChangeSt rid fmt s).isPlaying = false
        ∧ (handleFormatChangeSt rid fmt s).playbackTime = 0
        ∧ activeSource (handleFormatChangeSt rid fmt s) = none
        ∧ (handleFormatChangeSt rid fmt s).recordingFormats =
            updateFormat s.recordingFormats rid fmt)
  ∧ (∀ (s : CState) (rid fmt : String), s.isPlaying = false →
        handleFormatChangeSt rid fmt s =
          { s with recordingFormats := updateFormat s.recordingFormats rid fmt })
  ∧ (∀ (s : CState) (r : Recording) (rid fmt : String),
        s.selectedRecording = some r → r.id ≠ rid →
        handleFormatChangeSt rid fmt s =
          { s with recordingFormats := updateFormat s.recordingFormats rid fmt })
  ∧ (∀ (s : CState) (rid fmt : String), s.selectedRecording = none →
        handleFormatChangeSt rid fmt s =
          { s with recordingFormats := updateFormat s.recordingFormats rid fmt }) := by
  refine ⟨?_, ?_, ?_, ?_⟩
  · intro s r rid fmt h1 h2 h3 _hdiff
    refine ⟨?_, ?_, ?_, ?_, ?_⟩ <;>
      simp [handleFormatChangeSt, stopPlaybackSt, activeSource, h1, h2, h3]
  · intro s rid fmt h
    simp [handleFormatChangeSt, h]
  · intro s r rid fmt h1 h2
    simp [handleFormatChangeSt, h1, h2]
  · intro s rid fmt h
    simp [handleFormatChangeSt, h]

/-- Witness for C8: switching the playing entry `c8Rec` from mp3 to mp4
stops playback; switching a format while nothing plays only stores it. -/
theorem variant_switch_stops_playing_entry_witness :
    (handleFormatChangeSt "r8" "mp4" c8State).isPlaying = false
  ∧ activeSource (handleFormatChangeSt "r8" "mp4" c8State) = none
  ∧ handleFormatChangeSt "r8" "mp4" idleState =
      { idleState with recordingFormats := updateFormat idleState.recordingFormats "r8" "mp4" } :=
  ⟨((variant_switch_stops_playing_entry).1 c8State c8Rec "r8" "mp4"
      rfl rfl rfl (by decide)).2.1,
   ((variant_switch_stops_playing_entry).1 c8State c8Rec "r8" "mp4"
      rfl rfl rfl (by decide)).2.2.2.1,
   (variant_switch_stops_playing_entry).2.1 idleState "r8" "mp4" rfl⟩

/-- C10: the address-normalization function returns none for an absent or
empty address; for a non-empty address it returns the address with the
first occurrence of 10.0.2.2 replaced by localhost when the hostname is
localhost, with the first occurrence of localhost replaced by 10.0.2.2
when the hostname is 10.0.2.2, and the address unchanged for every other
hostname.  First-occurrence replacement is stated by the independent
splice-at-first-occurrence definition `specReplaceFirst`, whose
first-occurrence semantics is established by `firstOccIdx_spec` and
`firstOccIdx_none`. -/
theorem normalize_url_matches_spec (h u : String) (hu : u ≠ "") :
    normalizeServerUrl h none = none
  ∧ normalizeServerUrl h (some "") = none
  ∧ (h = "localhost" → normalizeServerUrl h (some u) =
        some ((specReplaceFirst u.toList "10.0.2.2".toList "localhost".toList).asString))
  ∧ (h = "10.0.2.2" → normalizeServerUrl h (some u) =
        some ((specReplaceFirst u.toList "localhost".toList "10.0.2.2".toList).asString))
  ∧ (h ≠ "localhost" → h ≠ "10.0.2.2" → normalizeServerUrl h (some u) = some u) := by
  refine ⟨rfl, rfl, ?_, ?_, ?_⟩
  · intro hh
    subst hh
    have e1 := replaceFirst_eq_spec "10.0.2.2".toList "localhost".toList (by decide)
    simp [normalizeServerUrl, hu, replaceFirstStr]
    exact e1 u.data
  · intro hh
    subst hh
    have e2 := replaceFirst_eq_spec "localhost".toList "10.0.2.2".toList (by decide)
    simp [normalizeServerUrl, hu, replaceFirstStr]
    exact e2 u.data
  · intro hh1 hh2
    simp [normalizeServerUrl, hu, hh1, hh2]

/-- Witness for C10: from a localhost browser the stored emulator address
is rewritten at its first occurrence. -/
theorem normalize_url_matches_spec_witness :
    normalizeServerUrl "localhost" (some "http://10.0.2.2:5000/f.mp3") =
      some ((specReplaceFirst "http://10.0.2.2:5000/f.mp3".toList
        "10.0.2.2".toList "localhost".toList).asString)
  ∧ normalizeServerUrl "localhost" (some "http://10.0.2.2:5000/f.mp3") =
      some "http://localhost:5000/f.mp3" :=
  ⟨(normalize_url_matches_spec "localhost" "http://10.0.2.2:5000/f.mp3"
      (by decide)).2.2.1 rfl,
   by decide⟩

end AudioWe
